import Mathlib

/-!
Shallow embedding of the Trafficinator traffic-generation engine
(`matomo-load-baked/loader.py` and `matomo-load-baked/target_router.py`)
together with theorems settling the specification claims.

Randomness in the Python source (`random.random()`, `random.randint`,
`random.choice`, `random.uniform`) is embedded by passing the drawn values
explicitly: `random.random()` becomes a rational draw `r` with `0 ≤ r < 1`,
`random.randint(a, b)` becomes `a + d % (b - a + 1)` for an arbitrary
natural draw `d` (always landing in `[a, b]`), `random.choice(xs)` becomes
`xs.getD (d % xs.length) dflt`, and `random.uniform(a, b)` becomes
`a + (b - a) * u` for a draw `u` with `0 ≤ u ≤ 1`.  Python floats are
embedded as rationals.
-/

namespace Trafficinator

/-! ### `check_daily_cap` (loader.py lines 949-964)

Returns `(should_pause, new_day_start, new_visits_today)`.  Timestamps are
seconds as rationals (Python `time.time()` floats); counters are naturals. -/

def check_daily_cap (now day_start : ℚ) (visits_today_local : ℕ) (max_total : ℕ) :
    Bool × ℚ × ℕ :=
  if max_total ≤ 0 then
    (false, day_start, visits_today_local)
  else if now - day_start ≥ 86400 then
    (false, now, 0)
  else if visits_today_local ≥ max_total then
    (true, day_start, visits_today_local)
  else
    (false, day_start, visits_today_local)

/-! ### `choose_action_pages` (loader.py lines 930-946)

`random.randint(2, num_pvs)` is embedded as `2 + d % (num_pvs - 1)` for an
arbitrary draw `d : ℕ`; the sentinel "no index" value is `-1 : ℤ`. -/

def pickActionPage (num_pvs : ℕ) (want : Bool) (d : ℕ) : ℤ :=
  if want then 2 + (d % (num_pvs - 1) : ℕ) else -1

def choose_action_pages (num_pvs : ℕ)
    (want_search want_outlink want_download want_click_event want_random_event : Bool)
    (d1 d2 d3 d4 d5 : ℕ) : ℤ × ℤ × ℤ × ℤ × ℤ :=
  if num_pvs ≤ 1 then
    (-1, -1, -1, -1, -1)
  else
    (pickActionPage num_pvs want_search d1,
     pickActionPage num_pvs want_outlink d2,
     pickActionPage num_pvs want_download d3,
     pickActionPage num_pvs want_click_event d4,
     pickActionPage num_pvs want_random_event d5)

/-! ### `run_backfill` (loader.py lines 1372-1410)

`run_backfill_day` (the per-day network burst) is abstracted by a function
`sentOf : ℕ → ℤ → ℕ` giving the number of visits actually sent on day
`idx` for a given target; everything else mirrors the source loop. -/

structure DaySummary where
  sent : ℕ
  target : Option ℤ
  skipped : Bool
  reason : Option String
  deriving Repr, DecidableEq

def skippedTotalDay : DaySummary := ⟨0, none, true, some "total_cap_reached"⟩

def skippedZeroDay : DaySummary := ⟨0, none, true, some "cap_zero"⟩

def dummyDay : DaySummary := ⟨0, none, true, none⟩

def run_backfill_from (per_day_cap : ℤ) (sentOf : ℕ → ℤ → ℕ)
    (idx : ℕ) (ndays : ℕ) (remaining : Option ℤ) : List DaySummary :=
  match ndays with
  | 0 => []
  | n + 1 =>
    match remaining with
    | some r =>
      if r ≤ 0 then
        skippedTotalDay :: run_backfill_from per_day_cap sentOf (idx + 1) n (some r)
      else
        let day_target := min per_day_cap r
        if day_target ≤ 0 then
          skippedZeroDay :: run_backfill_from per_day_cap sentOf (idx + 1) n (some r)
        else
          let sent := sentOf idx day_target
          ⟨sent, some day_target, false, none⟩ ::
            run_backfill_from per_day_cap sentOf (idx + 1) n (some (r - sent))
    | none =>
      if per_day_cap ≤ 0 then
        skippedZeroDay :: run_backfill_from per_day_cap sentOf (idx + 1) n none
      else
        ⟨sentOf idx per_day_cap, some per_day_cap, false, none⟩ ::
          run_backfill_from per_day_cap sentOf (idx + 1) n none

def run_backfill (maxPerDay maxTotal targetVisitsPerDay : ℤ)
    (sentOf : ℕ → ℤ → ℕ) (ndays : ℕ) : List DaySummary :=
  let remaining : Option ℤ := if maxTotal > 0 then some maxTotal else none
  let per_day_cap : ℤ := if maxPerDay > 0 then maxPerDay else targetVisitsPerDay
  run_backfill_from per_day_cap sentOf 0 ndays remaining

/-- Cumulative visits sent on the days strictly before index `i` of a
backfill summary list. -/
def priorSent (L : List DaySummary) (i : ℕ) : ℤ :=
  (((L.take i).map DaySummary.sent).sum : ℕ)

/-! ### `compute_backfill_window` (loader.py lines 260-291)

Calendar dates are embedded as day ordinals (`ℤ`, days since the Unix
epoch): Python's `date` arithmetic (`timedelta(days=i)` addition and
`(end - start).days` subtraction) becomes integer addition/subtraction.
The environment strings `BACKFILL_START_DATE`/`BACKFILL_END_DATE`/
`BACKFILL_DAYS_BACK`/`BACKFILL_DURATION_DAYS` become `Option ℤ`
(present-and-parsed versus unset). -/

/-- Day ordinal of a Gregorian calendar date (days since 1970-01-01),
the standard days-from-civil computation; Lean's `Int` division rounds
toward negative infinity for positive divisors, which is what the
algorithm requires. -/
def dateOrd (y m d : ℤ) : ℤ :=
  let y2 := if m ≤ 2 then y - 1 else y
  let era := y2 / 400
  let yoe := y2 - era * 400
  let mp := (m + 9) % 12
  let doy := (153 * mp + 2) / 5 + d - 1
  let doe := yoe * 365 + yoe / 4 - yoe / 100 + doy
  era * 146097 + doe - 719468

/-- Shared tail of `compute_backfill_window`: the start/end/window checks
and the inclusive ascending date list. -/
def checkWindowDates (s e today : ℤ) : Except String (List ℤ) :=
  if s > e then .error "Backfill start date must be on or before end date"
  else if e > today then .error "Backfill end date cannot be in the future"
  else if e - s + 1 > 180 then .error "Backfill window cannot exceed 180 days"
  else .ok ((List.range (e - s + 1).toNat).map (fun i : ℕ => s + (i : ℤ)))

def compute_backfill_window (startDate endDate daysBack durationDays : Option ℤ)
    (today : ℤ) : Except String (List ℤ) :=
  let hasAbsolute := startDate.isSome || endDate.isSome
  let hasRelative := daysBack.isSome || durationDays.isSome
  if hasAbsolute && hasRelative then
    .error "Provide either absolute dates or days_back + duration, not both"
  else if hasAbsolute then
    match startDate, endDate with
    | some s, some e => checkWindowDates s e today
    | _, _ => .error "BACKFILL_START_DATE and BACKFILL_END_DATE are both required"
  else if hasRelative then
    match daysBack, durationDays with
    | some db, some du => checkWindowDates (today - db) (today - db + du - 1) today
    | _, _ => .error "BACKFILL_DAYS_BACK and BACKFILL_DURATION_DAYS must both be set"
  else
    .error "Backfill window required: set start/end dates or days_back + duration"

/-! ### `generate_ecommerce_order` (loader.py lines 680-755)

Configuration constants are the source's environment defaults.  Python
floats are rationals; `round(x, 2)` becomes `round2` (round half up at
two decimals; Python rounds binary floats half to even, which differs
only on exact two-decimal ties that do not arise in the claims below).
`random.uniform(a, b)` is `a + (b - a) * u` for a draw `u ∈ [0, 1]`,
`random.randint(a, b)` is `a + d % (b - a + 1)`, `random.choice(xs)` is
`xs.getD (d % xs.length) dflt`, and `random.random()` is a draw in
`[0, 1)`.  The UUID order id and the JSON serialization of the item list
carry no numeric content and are omitted from the embedded order. -/

def ECOMMERCE_ORDER_VALUE_MIN : ℚ := 1599/100

def ECOMMERCE_ORDER_VALUE_MAX : ℚ := 29999/100

def ECOMMERCE_ITEMS_MIN : ℕ := 1

def ECOMMERCE_ITEMS_MAX : ℕ := 5

def ECOMMERCE_TAX_RATE : ℚ := 1/10

def ECOMMERCE_SHIPPING_RATES : List ℚ := [0, 599/100, 999/100, 1599/100]

structure Product where
  sku : String
  name : String
  price : ℚ
  deriving DecidableEq, Repr

def ECOMMERCE_PRODUCTS : List (String × List Product) := [
  ("Electronics", [
    ⟨"PHONE-001", "Smartphone Pro Max", 89999/100⟩,
    ⟨"PHONE-002", "Budget Smartphone", 19999/100⟩,
    ⟨"LAPTOP-001", "Gaming Laptop", 129999/100⟩,
    ⟨"LAPTOP-002", "Business Laptop", 74999/100⟩,
    ⟨"TABLET-001", "Pro Tablet 11\"", 59999/100⟩,
    ⟨"TABLET-002", "Basic Tablet", 14999/100⟩,
    ⟨"HEADPHONE-001", "Wireless Headphones", 24999/100⟩,
    ⟨"HEADPHONE-002", "Gaming Headset", 8999/100⟩,
    ⟨"CAMERA-001", "Digital Camera", 54999/100⟩,
    ⟨"WATCH-001", "Smart Watch", 29999/100⟩]),
  ("Clothing", [
    ⟨"SHIRT-001", "Cotton T-Shirt", 1999/100⟩,
    ⟨"SHIRT-002", "Polo Shirt", 3999/100⟩,
    ⟨"PANTS-001", "Jeans", 5999/100⟩,
    ⟨"PANTS-002", "Chinos", 4999/100⟩,
    ⟨"SHOE-001", "Running Shoes", 8999/100⟩,
    ⟨"SHOE-002", "Casual Sneakers", 6999/100⟩,
    ⟨"JACKET-001", "Winter Jacket", 12999/100⟩,
    ⟨"DRESS-001", "Summer Dress", 7999/100⟩,
    ⟨"SWEATER-001", "Wool Sweater", 8999/100⟩,
    ⟨"HAT-001", "Baseball Cap", 2499/100⟩]),
  ("Books", [
    ⟨"BOOK-001", "Programming Guide", 4599/100⟩,
    ⟨"BOOK-002", "Mystery Novel", 1299/100⟩,
    ⟨"BOOK-003", "Cook Book", 2999/100⟩,
    ⟨"BOOK-004", "Science Textbook", 8999/100⟩,
    ⟨"BOOK-005", "Biography", 1999/100⟩,
    ⟨"BOOK-006", "Art History", 5999/100⟩,
    ⟨"BOOK-007", "Travel Guide", 2499/100⟩,
    ⟨"BOOK-008", "Business Strategy", 3499/100⟩,
    ⟨"EBOOK-001", "Digital Marketing (eBook)", 999/100⟩,
    ⟨"EBOOK-002", "Fiction Collection (eBook)", 799/100⟩]),
  ("Home & Garden", [
    ⟨"FURNITURE-001", "Office Chair", 19999/100⟩,
    ⟨"FURNITURE-002", "Desk Lamp", 4999/100⟩,
    ⟨"APPLIANCE-001", "Coffee Maker", 8999/100⟩,
    ⟨"APPLIANCE-002", "Blender", 6999/100⟩,
    ⟨"TOOL-001", "Drill Set", 7999/100⟩,
    ⟨"TOOL-002", "Screwdriver Kit", 2999/100⟩,
    ⟨"GARDEN-001", "Plant Pot Set", 3999/100⟩,
    ⟨"GARDEN-002", "Garden Hose", 3499/100⟩,
    ⟨"DECOR-001", "Wall Art", 5999/100⟩,
    ⟨"STORAGE-001", "Storage Box", 2499/100⟩]),
  ("Sports", [
    ⟨"SPORT-001", "Yoga Mat", 2999/100⟩,
    ⟨"SPORT-002", "Dumbbells Set", 8999/100⟩,
    ⟨"SPORT-003", "Tennis Racket", 11999/100⟩,
    ⟨"SPORT-004", "Basketball", 3499/100⟩,
    ⟨"SPORT-005", "Running Shorts", 2499/100⟩,
    ⟨"SPORT-006", "Athletic T-Shirt", 1999/100⟩,
    ⟨"SPORT-007", "Water Bottle", 1499/100⟩,
    ⟨"SPORT-008", "Gym Bag", 3999/100⟩,
    ⟨"SPORT-009", "Resistance Bands", 1999/100⟩,
    ⟨"SPORT-010", "Fitness Tracker", 14999/100⟩])]

/-- Python's `round(x, 2)` at two decimals. -/
def round2 (q : ℚ) : ℚ := (Int.floor (q * 100 + 1/2) : ℚ) / 100

structure OrderItem where
  sku : String
  name : String
  category : String
  price : ℚ
  quantity : ℕ
  deriving DecidableEq, Repr

structure Order where
  items : List OrderItem
  revenue : ℚ
  subtotal : ℚ
  tax : ℚ
  shipping : ℚ
  deriving DecidableEq, Repr

/-- Random draws consumed while building one item. -/
structure ItemRand where
  catIdx : ℕ
  prodIdx : ℕ
  qtyDraw : ℚ
  qtyAlt : ℕ
  priceVar : ℚ

/-- Random draws consumed by one `generate_ecommerce_order` call. -/
structure OrderRand where
  gateDraw : ℚ
  numItemsDraw : ℕ
  weightDraw : ℚ
  itemDraws : ℕ → ItemRand
  shippingIdx : ℕ
  rescaleDraw : ℚ

def orderNumItems (r : OrderRand) : ℕ :=
  let n0 := ECOMMERCE_ITEMS_MIN +
    r.numItemsDraw % (ECOMMERCE_ITEMS_MAX - ECOMMERCE_ITEMS_MIN + 1)
  let weights : List ℚ := [6/10, 25/100, 1/10, 4/100, 1/100]
  if n0 ≤ weights.length then
    if r.weightDraw > weights.getD (n0 - 1) 0 then 1 else n0
  else n0

def mkOrderItem (num_items : ℕ) (d : ItemRand) : OrderItem :=
  let cat := ECOMMERCE_PRODUCTS.getD (d.catIdx % ECOMMERCE_PRODUCTS.length) ("", [])
  let product := cat.2.getD (d.prodIdx % cat.2.length) ⟨"", "", 0⟩
  let quantity := if d.qtyDraw < 8/10 then 1 else 2 + d.qtyAlt % 2
  let price_variation := 95/100 + (1/10) * d.priceVar
  let final_price0 := round2 (product.price * price_variation)
  let final_price := max (ECOMMERCE_ORDER_VALUE_MIN / (num_items : ℚ))
    (min final_price0 (ECOMMERCE_ORDER_VALUE_MAX / (num_items : ℚ)))
  ⟨product.sku, product.name, cat.1, final_price, quantity⟩

def initial_items (r : OrderRand) : List OrderItem :=
  (List.range (orderNumItems r)).map
    (fun k => mkOrderItem (orderNumItems r) (r.itemDraws k))

def order_shipping (r : OrderRand) : ℚ :=
  ECOMMERCE_SHIPPING_RATES.getD
    (r.shippingIdx % ECOMMERCE_SHIPPING_RATES.length) 0

/-- `(subtotal, tax, revenue)` of an item list plus shipping; the three
lines shared by the initial computation and the range adjustment. -/
def order_totals (items : List OrderItem) (shipping : ℚ) : ℚ × ℚ × ℚ :=
  let subtotal := (items.map (fun it => it.price * (it.quantity : ℚ))).sum
  let tax := round2 ((subtotal + shipping) * ECOMMERCE_TAX_RATE)
  let revenue := round2 (subtotal + shipping + tax)
  (subtotal, tax, revenue)

def target_subtotal (r : OrderRand) : ℚ :=
  ((8/10) * ECOMMERCE_ORDER_VALUE_MIN +
    ((8/10) * ECOMMERCE_ORDER_VALUE_MAX - (8/10) * ECOMMERCE_ORDER_VALUE_MIN)
      * r.rescaleDraw) - order_shipping r

def scale_factor (r : OrderRand) : ℚ :=
  target_subtotal r / (order_totals (initial_items r) (order_shipping r)).1

def rescaled_items (r : OrderRand) : List OrderItem :=
  (initial_items r).map
    (fun it => { it with price := round2 (it.price * scale_factor r) })

def make_order (r : OrderRand) : Order :=
  if (order_totals (initial_items r) (order_shipping r)).2.2 <
        ECOMMERCE_ORDER_VALUE_MIN ∨
      (order_totals (initial_items r) (order_shipping r)).2.2 >
        ECOMMERCE_ORDER_VALUE_MAX then
    ⟨rescaled_items r,
     (order_totals (rescaled_items r) (order_shipping r)).2.2,
     (order_totals (rescaled_items r) (order_shipping r)).1,
     (order_totals (rescaled_items r) (order_shipping r)).2.1,
     order_shipping r⟩
  else
    ⟨initial_items r,
     (order_totals (initial_items r) (order_shipping r)).2.2,
     (order_totals (initial_items r) (order_shipping r)).1,
     (order_totals (initial_items r) (order_shipping r)).2.1,
     order_shipping r⟩

def generate_ecommerce_order (probability : ℚ) (r : OrderRand) : Option Order :=
  if r.gateDraw ≥ probability then none else some (make_order r)

/-- Concrete draw sequence exercising the range-adjustment path: one
expensive item (PHONE-001 at 899.99, clamped to 299.99), free shipping,
rescale draw 0. -/
def belowMinRand : OrderRand :=
  ⟨0, 0, 0, fun _ => ⟨0, 0, 0, 0, 1/2⟩, 0, 0⟩

/-! ### Action placement inside `visit` (loader.py lines 1001-1006, 1084-1148)

`visit` computes `ecommerce_pageview = num_pvs` when an order was sampled
and `num_pvs > 1` (else `-1`), then tags each 1-based pageview `i` by the
`if`/`elif` chain: search, outlink, download, click event, random event,
and only then ecommerce.  `HitTag.ecommerce` stands for attaching the
purchase parameters (`idgoal=0`, `ec_id`, `ec_items`, `revenue`, `ec_st`,
`ec_tx`, `ec_currency`) to the hit. -/

inductive HitTag where
  | search | outlink | download | clickEvent | randomEvent | ecommerce | plain
  deriving DecidableEq, Repr

def ecommerce_pageview (hasOrder : Bool) (num_pvs : ℕ) : ℤ :=
  if hasOrder && decide (1 < num_pvs) then (num_pvs : ℤ) else -1

def hitTag (i num_pvs : ℕ)
    (search_pageview outlink_pageview download_pageview
     click_event_pageview random_event_pageview : ℤ) (hasOrder : Bool) : HitTag :=
  if (i : ℤ) = search_pageview then .search
  else if (i : ℤ) = outlink_pageview then .outlink
  else if (i : ℤ) = download_pageview then .download
  else if (i : ℤ) = click_event_pageview then .clickEvent
  else if (i : ℤ) = random_event_pageview then .randomEvent
  else if (i : ℤ) = ecommerce_pageview hasOrder num_pvs ∧ hasOrder = true then .ecommerce
  else .plain

/-! ### Funnel loading and selection (loader.py lines 316-415)

`load_funnels_from_file` is embedded over already-parsed JSON entries
(`RawFunnel`); file-reading and JSON decoding are outside the engine.  It
never raises for an individual bad entry: disabled entries, entries with
no steps, entries whose first step is not a pageview, and entries with an
unsupported step type are skipped (with a warning in the source) and the
rest still load, sorted by ascending priority.  `select_funnel` walks the
loaded list, drawing `random.random()` (a rational in `[0,1)`) per funnel
and returning the first funnel whose draw is `≤` its probability. -/

def SUPPORTED_FUNNEL_STEP_TYPES : List String :=
  ["pageview", "event", "site_search", "outlink", "download", "ecommerce"]

structure RawStep where
  type : String
  delay_seconds_min : Option ℚ
  delay_seconds_max : Option ℚ
  deriving DecidableEq, Repr

structure NormStep where
  type : String
  delay_seconds_min : ℚ
  delay_seconds_max : ℚ
  deriving DecidableEq, Repr

structure RawFunnel where
  name : String
  enabled : Bool
  probability : ℚ
  priority : ℤ
  exit_after_completion : Bool
  steps : List RawStep
  deriving DecidableEq, Repr

structure Funnel where
  name : String
  probability : ℚ
  priority : ℤ
  enabled : Bool
  exit_after_completion : Bool
  steps : List NormStep
  deriving DecidableEq, Repr

def dummyFunnel : Funnel := ⟨"", 0, 0, false, true, []⟩

def normalizeStep (s : RawStep) : NormStep :=
  let min_delay := max 0 (s.delay_seconds_min.getD 0)
  let max_delay0 := s.delay_seconds_max.getD min_delay
  let max_delay := if max_delay0 < min_delay then min_delay else max_delay0
  ⟨s.type, min_delay, max_delay⟩

def stepsSupported (steps : List RawStep) : Bool :=
  steps.all (fun s => SUPPORTED_FUNNEL_STEP_TYPES.contains s.type)

/-- One entry of the config: `none` when the source skips it (disabled,
no steps, first step not a pageview, or unsupported step type). -/
def loadFunnelEntry (e : RawFunnel) : Option Funnel :=
  if ¬ e.enabled then none
  else if e.steps.isEmpty then none
  else if (e.steps.headD ⟨"", none, none⟩).type ≠ "pageview" then none
  else if ¬ stepsSupported e.steps then none
  else some ⟨e.name, min (max e.probability 0) 1, e.priority, true,
             e.exit_after_completion, e.steps.map normalizeStep⟩

def load_funnels_from_file (entries : List RawFunnel) : List Funnel :=
  List.insertionSort (fun a b => a.priority ≤ b.priority)
    (entries.filterMap loadFunnelEntry)

def select_funnel_from : List Funnel → (ℕ → ℚ) → ℕ → Option Funnel
  | [], _, _ => none
  | f :: fs, rs, k =>
    if rs k ≤ f.probability then some f else select_funnel_from fs rs (k + 1)

def select_funnel (funnels : List Funnel) (rs : ℕ → ℚ) : Option Funnel :=
  if funnels.isEmpty then none else select_funnel_from funnels rs 0

/-! ### `Target`, `TargetMetrics`, `TargetRouter` (target_router.py)

The per-target metrics dictionary held by the router is modelled
separately (`TargetMetrics` below) since the claims treat selection and
metrics independently.  `datetime.utcnow()` timestamps are passed in as a
rational `now` argument. -/

structure Target where
  name : String
  url : String
  site_id : ℕ
  token_auth : Option String
  weight : ℕ
  enabled : Bool
  deriving DecidableEq, Repr

def dummyTarget : Target := ⟨"", "", 0, none, 1, false⟩

structure TargetMetrics where
  target_name : String
  total_requests : ℕ
  successful_requests : ℕ
  failed_requests : ℕ
  total_latency_ms : ℚ
  last_error : Option String
  last_success : Option ℚ
  last_failure : Option ℚ
  deriving DecidableEq, Repr

def TargetMetrics.init (name : String) : TargetMetrics :=
  ⟨name, 0, 0, 0, 0, none, none, none⟩

def TargetMetrics.success_rate (m : TargetMetrics) : ℚ :=
  if 0 < m.total_requests then
    (m.successful_requests : ℚ) / (m.total_requests : ℚ)
  else 0

def TargetMetrics.record_success (m : TargetMetrics) (latency_ms now : ℚ) :
    TargetMetrics :=
  { m with
    total_requests := m.total_requests + 1
    successful_requests := m.successful_requests + 1
    total_latency_ms := m.total_latency_ms + latency_ms
    last_success := some now }

def TargetMetrics.record_failure (m : TargetMetrics) (error : String) (now : ℚ) :
    TargetMetrics :=
  { m with
    total_requests := m.total_requests + 1
    failed_requests := m.failed_requests + 1
    last_error := some error
    last_failure := some now }

/-- A sequence of hit outcomes recorded against one target's metrics. -/
inductive MetricsOp where
  | success (latency_ms now : ℚ)
  | failure (error : String) (now : ℚ)

def applyMetricsOps (m : TargetMetrics) : List MetricsOp → TargetMetrics
  | [] => m
  | .success l t :: ops => applyMetricsOps (m.record_success l t) ops
  | .failure e t :: ops => applyMetricsOps (m.record_failure e t) ops

structure TargetRouter where
  all_targets : List Target
  enabled_targets : List Target
  strategy : String
  index : ℕ
  deriving DecidableEq, Repr

def TargetRouter.make (targets : List Target) (strategy : String) :
    Except String TargetRouter :=
  if (targets.filter (·.enabled)).isEmpty then
    .error "At least one target must be enabled"
  else if strategy = "weighted" && (targets.filter (·.enabled)).any (·.weight < 1) then
    .error "All enabled targets must have weight >= 1 for weighted distribution"
  else
    .ok ⟨targets, targets.filter (·.enabled), strategy, 0⟩

def TargetRouter.next_round_robin (r : TargetRouter) : Target × TargetRouter :=
  (r.enabled_targets.getD (r.index % r.enabled_targets.length) dummyTarget,
   { r with index := r.index + 1 })

/-- Router state after `n` round-robin selections. -/
def TargetRouter.afterCalls (r : TargetRouter) : ℕ → TargetRouter
  | 0 => r
  | n + 1 => (r.afterCalls n).next_round_robin.2

/-- The target returned by the `n`-th round-robin call (0-based). -/
def TargetRouter.nthSelection (r : TargetRouter) (n : ℕ) : Target :=
  (r.afterCalls n).next_round_robin.1

end Trafficinator

namespace Trafficinator

/-- Invariant of the backfill day loop: starting from a remaining budget
`r`, every entry is skipped exactly when the budget before it is exhausted,
and otherwise targets `min per_day_cap (budget before it)`. -/
theorem run_backfill_from_spec (pdc : ℤ) (hpdc : 0 < pdc) (sentOf : ℕ → ℤ → ℕ) :
    ∀ (n idx : ℕ) (r : ℤ),
      (run_backfill_from pdc sentOf idx n (some r)).length = n ∧
      ∀ i, i < n →
        (((run_backfill_from pdc sentOf idx n (some r)).getD i dummyDay).skipped = true ↔
          r - priorSent (run_backfill_from pdc sentOf idx n (some r)) i ≤ 0) ∧
        (((run_backfill_from pdc sentOf idx n (some r)).getD i dummyDay).skipped = false →
          ((run_backfill_from pdc sentOf idx n (some r)).getD i dummyDay).target =
            some (min pdc (r - priorSent (run_backfill_from pdc sentOf idx n (some r)) i)) ∧
          ((run_backfill_from pdc sentOf idx n (some r)).getD i dummyDay).sent =
            sentOf (idx + i)
              (min pdc (r - priorSent (run_backfill_from pdc sentOf idx n (some r)) i))) := by
  intro n
  induction n with
  | zero =>
    intro idx r
    exact ⟨rfl, fun i hi => absurd hi (Nat.not_lt_zero i)⟩
  | succ n ih =>
    intro idx r
    by_cases hr : r ≤ 0
    · -- budget exhausted: this day and (inductively) all later days are skipped
      have hskip : run_backfill_from pdc sentOf idx (n + 1) (some r) =
          skippedTotalDay :: run_backfill_from pdc sentOf (idx + 1) n (some r) := by
        simp [run_backfill_from, hr]
      rw [hskip]
      refine ⟨by simp [(ih (idx + 1) r).1], ?_⟩
      intro i hi
      match i with
      | 0 =>
        refine ⟨?_, ?_⟩
        · simp [List.getD, priorSent, skippedTotalDay, hr]
        · intro hfalse
          simp [List.getD, skippedTotalDay] at hfalse
      | i + 1 =>
        have hi' : i < n := Nat.lt_of_succ_lt_succ hi
        have htail := (ih (idx + 1) r).2 i hi'
        have hps : priorSent (skippedTotalDay :: run_backfill_from pdc sentOf (idx + 1) n (some r)) (i + 1) =
            priorSent (run_backfill_from pdc sentOf (idx + 1) n (some r)) i := by
          simp [priorSent, skippedTotalDay]
        simpa [List.getD_cons_succ, hps, Nat.add_assoc, Nat.add_comm,
          Nat.add_left_comm] using htail
    · -- budget positive: this day runs with target min pdc r
      have hpos : ¬ min pdc r ≤ 0 :=
        not_le.mpr (lt_min hpdc (lt_of_not_ge hr))
      have hrun : run_backfill_from pdc sentOf idx (n + 1) (some r) =
          ⟨sentOf idx (min pdc r), some (min pdc r), false, none⟩ ::
            run_backfill_from pdc sentOf (idx + 1) n (some (r - sentOf idx (min pdc r))) := by
        simp [run_backfill_from, hr, hpos]
      rw [hrun]
      refine ⟨by simp [(ih (idx + 1) (r - sentOf idx (min pdc r))).1], ?_⟩
      intro i hi
      match i with
      | 0 =>
        refine ⟨?_, ?_⟩
        · simp [List.getD, priorSent, hr]
        · intro _
          simp [List.getD, priorSent]
      | i + 1 =>
        have hi' : i < n := Nat.lt_of_succ_lt_succ hi
        have htail := (ih (idx + 1) (r - sentOf idx (min pdc r))).2 i hi'
        have hps : priorSent
            (DaySummary.mk (sentOf idx (min pdc r)) (some (min pdc r)) false none ::
              run_backfill_from pdc sentOf (idx + 1) n (some (r - sentOf idx (min pdc r)))) (i + 1) =
            (sentOf idx (min pdc r) : ℤ) +
              priorSent (run_backfill_from pdc sentOf (idx + 1) n (some (r - sentOf idx (min pdc r)))) i := by
          simp [priorSent]
        simpa [List.getD_cons_succ, hps, sub_sub, Nat.add_assoc, Nat.add_comm,
          Nat.add_left_comm] using htail

/-- C3: with a positive per-day cap and positive total cap, each day's
target equals `min(per_day_cap, total_cap - visits sent on earlier days)`,
a day whose remaining budget is exhausted is recorded as skipped, and with
`per_day_cap = 100`, `total_cap = 150` over 2 days (each burst sending its
full target) day 1 targets 100 and day 2 targets 50. -/
theorem run_backfill_cap_enforcement (maxPerDay maxTotal tvpd : ℤ)
    (sentOf : ℕ → ℤ → ℕ) (ndays : ℕ)
    (hpd : 0 < maxPerDay) (htot : 0 < maxTotal) :
    ((run_backfill maxPerDay maxTotal tvpd sentOf ndays).length = ndays ∧
      ∀ i, i < ndays →
        (((run_backfill maxPerDay maxTotal tvpd sentOf ndays).getD i dummyDay).skipped = true ↔
          maxTotal - priorSent (run_backfill maxPerDay maxTotal tvpd sentOf ndays) i ≤ 0) ∧
        (((run_backfill maxPerDay maxTotal tvpd sentOf ndays).getD i dummyDay).skipped = false →
          ((run_backfill maxPerDay maxTotal tvpd sentOf ndays).getD i dummyDay).target =
            some (min maxPerDay
              (maxTotal - priorSent (run_backfill maxPerDay maxTotal tvpd sentOf ndays) i)) ∧
          ((run_backfill maxPerDay maxTotal tvpd sentOf ndays).getD i dummyDay).sent =
            sentOf i (min maxPerDay
              (maxTotal - priorSent (run_backfill maxPerDay maxTotal tvpd sentOf ndays) i)))) ∧
    run_backfill 100 150 20000 (fun _ t => t.toNat) 2 =
      [⟨100, some 100, false, none⟩, ⟨50, some 50, false, none⟩] := by
  constructor
  · have hrb : run_backfill maxPerDay maxTotal tvpd sentOf ndays =
        run_backfill_from maxPerDay sentOf 0 ndays (some maxTotal) := by
      simp [run_backfill, htot, hpd]
    have hspec := run_backfill_from_spec maxPerDay hpd sentOf ndays 0 maxTotal
    rw [hrb]
    exact ⟨hspec.1, fun i hi => by simpa using hspec.2 i hi⟩
  · decide

/-- C1: with a configured cap (`max_total > 0`), `check_daily_cap` pauses
exactly when the 24h window has not yet elapsed and the counter has reached
the cap; once 86400 or more seconds have elapsed it returns no-pause with
the window start reset to `now` and the counter reset to `0`, regardless of
the counter. -/
theorem check_daily_cap_correct (now day_start : ℚ) (visits : ℕ) (max_total : ℕ)
    (hcap : 0 < max_total) :
    ((check_daily_cap now day_start visits max_total).1 = true ↔
      (now - day_start < 86400 ∧ max_total ≤ visits)) ∧
    (86400 ≤ now - day_start →
      check_daily_cap now day_start visits max_total = (false, now, 0)) := by
  have hcap' : ¬ max_total ≤ 0 := by omega
  unfold check_daily_cap
  rw [if_neg hcap']
  by_cases hw : now - day_start ≥ 86400
  · rw [if_pos hw]
    refine ⟨?_, fun _ => rfl⟩
    constructor
    · intro h; cases h
    · rintro ⟨h1, _⟩; exact absurd hw (not_le.mpr h1)
  · rw [if_neg hw]
    by_cases hv : visits ≥ max_total
    · rw [if_pos hv]
      exact ⟨⟨fun _ => ⟨lt_of_not_ge hw, hv⟩, fun _ => rfl⟩,
        fun hcontra => absurd hcontra hw⟩
    · rw [if_neg hv]
      refine ⟨?_, fun hcontra => absurd hcontra hw⟩
      constructor
      · intro h; cases h
      · rintro ⟨_, h2⟩; exact absurd h2 hv

theorem check_daily_cap_correct_witness :
    ((check_daily_cap 1000 0 5 5).1 = true ↔ ((1000 : ℚ) - 0 < 86400 ∧ 5 ≤ 5)) ∧
    (86400 ≤ (1000 : ℚ) - 0 → check_daily_cap 1000 0 5 5 = (false, 1000, 0)) :=
  check_daily_cap_correct 1000 0 5 5 (by decide)

/-- C2: if `num_pvs ≤ 1` no action receives an index (all are the sentinel
`-1`); if `num_pvs > 1` every index assigned to a requested action lies in
`[2, num_pvs]` — an action is never placed on the first pageview. -/
theorem choose_action_pages_correct (num_pvs : ℕ)
    (ws wo wd wc wr : Bool) (d1 d2 d3 d4 d5 : ℕ) :
    (num_pvs ≤ 1 →
      choose_action_pages num_pvs ws wo wd wc wr d1 d2 d3 d4 d5 =
        (-1, -1, -1, -1, -1)) ∧
    (1 < num_pvs →
      ∀ p ∈ [(choose_action_pages num_pvs ws wo wd wc wr d1 d2 d3 d4 d5).1,
             (choose_action_pages num_pvs ws wo wd wc wr d1 d2 d3 d4 d5).2.1,
             (choose_action_pages num_pvs ws wo wd wc wr d1 d2 d3 d4 d5).2.2.1,
             (choose_action_pages num_pvs ws wo wd wc wr d1 d2 d3 d4 d5).2.2.2.1,
             (choose_action_pages num_pvs ws wo wd wc wr d1 d2 d3 d4 d5).2.2.2.2],
        p ≠ -1 → 2 ≤ p ∧ p ≤ (num_pvs : ℤ)) := by
  constructor
  · intro h
    simp [choose_action_pages, h]
  · intro h p hp hne
    have hpick : ∀ (w : Bool) (d : ℕ), pickActionPage num_pvs w d ≠ -1 →
        2 ≤ pickActionPage num_pvs w d ∧ pickActionPage num_pvs w d ≤ (num_pvs : ℤ) := by
      intro w d hw
      cases w with
      | false => simp [pickActionPage] at hw
      | true =>
        have hlt : d % (num_pvs - 1) < num_pvs - 1 :=
          Nat.mod_lt _ (by omega)
        simp only [pickActionPage, if_pos]
        omega
    have hgt : ¬ num_pvs ≤ 1 := by omega
    simp only [choose_action_pages, if_neg hgt] at hp
    simp only [List.mem_cons, List.mem_singleton] at hp
    rcases hp with rfl | rfl | rfl | rfl | rfl | h
    · exact hpick ws d1 hne
    · exact hpick wo d2 hne
    · exact hpick wd d3 hne
    · exact hpick wc d4 hne
    · exact hpick wr d5 hne
    · cases h

theorem run_backfill_cap_enforcement_witness :
    run_backfill 100 150 20000 (fun _ t => t.toNat) 2 =
      [⟨100, some 100, false, none⟩, ⟨50, some 50, false, none⟩] :=
  (run_backfill_cap_enforcement 100 150 20000 (fun _ t => t.toNat) 2
    (by decide) (by decide)).2

/-- The start/end/window checks succeed exactly on a valid window. -/
theorem checkWindowDates_ok (s e today : ℤ) :
    (∃ l, checkWindowDates s e today = .ok l) ↔
      s ≤ e ∧ e ≤ today ∧ e - s + 1 ≤ 180 := by
  unfold checkWindowDates
  split_ifs with h1 h2 h3 <;> simp <;> omega

/-- A successful window is the ascending inclusive list of consecutive day
ordinals from `s` to `e`. -/
theorem checkWindowDates_ascending (s e today : ℤ) (l : List ℤ)
    (h : checkWindowDates s e today = .ok l) :
    0 < l.length ∧ ∀ i, i < l.length → l.getD i 0 = s + i := by
  unfold checkWindowDates at h
  split_ifs at h with h1 h2 h3
  injection h with h
  subst h
  have hlen : ((List.range (e - s + 1).toNat).map (fun i : ℕ => s + (i : ℤ))).length
      = (e - s + 1).toNat := by
    rw [List.length_map, List.length_range]
  constructor
  · rw [hlen]; omega
  · intro i hi
    rw [hlen] at hi
    rw [List.getD_eq_getElem _ _ (by rw [hlen]; exact hi)]
    rw [List.getElem_map, List.getElem_range]

/-- C4: `compute_backfill_window` succeeds exactly when the configuration
is valid (exactly one complete selector — absolute `[start, end]` pair or
relative `(days_back, duration)` pair — with start ≤ end ≤ today and the
window at most 180 days); every successful result is an ascending
inclusive list of consecutive dates; and the absolute dates
2024-10-01..2024-10-03 resolve to exactly 3 ascending dates. -/
theorem compute_backfill_window_correct (sd ed db du : Option ℤ) (today : ℤ) :
    ((∃ l, compute_backfill_window sd ed db du today = .ok l) ↔
      ((∃ s e, sd = some s ∧ ed = some e ∧ db = none ∧ du = none ∧
          s ≤ e ∧ e ≤ today ∧ e - s + 1 ≤ 180) ∨
       (∃ b u, sd = none ∧ ed = none ∧ db = some b ∧ du = some u ∧
          today - b ≤ today - b + u - 1 ∧ today - b + u - 1 ≤ today ∧ u ≤ 180))) ∧
    (∀ l, compute_backfill_window sd ed db du today = .ok l →
      0 < l.length ∧ ∀ i, i < l.length → l.getD i 0 = l.getD 0 0 + i) ∧
    compute_backfill_window (some (dateOrd 2024 10 1)) (some (dateOrd 2024 10 3))
        none none (dateOrd 2024 10 12) =
      .ok [dateOrd 2024 10 1, dateOrd 2024 10 1 + 1, dateOrd 2024 10 1 + 2] := by
  refine ⟨?_, ?_, by rfl⟩
  · rcases sd with _ | s <;> rcases ed with _ | e <;>
      rcases db with _ | b <;> rcases du with _ | u <;>
      simp [compute_backfill_window, checkWindowDates_ok] <;> omega
  · intro l hl
    have hasc : ∃ s, 0 < l.length ∧ ∀ i, i < l.length → l.getD i 0 = s + i := by
      rcases sd with _ | s <;> rcases ed with _ | e <;>
        rcases db with _ | b <;> rcases du with _ | u <;>
        simp [compute_backfill_window] at hl
      · exact ⟨_, checkWindowDates_ascending _ _ _ _ hl⟩
      · exact ⟨_, checkWindowDates_ascending _ _ _ _ hl⟩
    obtain ⟨s, hlen, hget⟩ := hasc
    refine ⟨hlen, fun i hi => ?_⟩
    rw [hget i hi, hget 0 hlen]
    simp

theorem compute_backfill_window_correct_witness :
    compute_backfill_window (some (dateOrd 2024 10 1)) (some (dateOrd 2024 10 3))
        none none (dateOrd 2024 10 12) =
      .ok [dateOrd 2024 10 1, dateOrd 2024 10 1 + 1, dateOrd 2024 10 1 + 2] :=
  (compute_backfill_window_correct (some (dateOrd 2024 10 1))
    (some (dateOrd 2024 10 3)) none none (dateOrd 2024 10 12)).2.2

/-- C7 counterexample: with purchase probability forced to 1, the draw
sequence `belowMinRand` (single clamped-to-maximum item whose initial
revenue 329.99 exceeds the bound, then the lowest rescale draw) yields a
final revenue of 14.07, strictly below the configured minimum 15.99. -/
theorem generate_ecommerce_order_below_min :
    (generate_ecommerce_order 1 belowMinRand).map Order.revenue =
      some (1407/100) ∧
    (1407/100 : ℚ) < ECOMMERCE_ORDER_VALUE_MIN := by
  have hr1 : List.range 1 = [0] := rfl
  constructor
  · norm_num [generate_ecommerce_order, make_order, belowMinRand, initial_items,
      orderNumItems, mkOrderItem, order_shipping, order_totals, rescaled_items,
      scale_factor, target_subtotal, round2, ECOMMERCE_PRODUCTS,
      ECOMMERCE_SHIPPING_RATES, ECOMMERCE_TAX_RATE, ECOMMERCE_ITEMS_MIN,
      ECOMMERCE_ITEMS_MAX, ECOMMERCE_ORDER_VALUE_MIN, ECOMMERCE_ORDER_VALUE_MAX,
      hr1]
  · norm_num [ECOMMERCE_ORDER_VALUE_MIN]

/-- C7 (amended): with purchase probability forced to 1 an order is always
produced, its revenue always equals `round2(subtotal + shipping + tax)`
(with `tax = round2((subtotal + shipping) * tax_rate)`), and whenever the
initially computed revenue lies within the configured `[min, max]` bound
the returned revenue lies within that bound; when the initial revenue is
out of range the rescaling pass may return a revenue below the minimum. -/
theorem generate_ecommerce_order_revenue (r : OrderRand) (hgate : r.gateDraw < 1) :
    ∃ o, generate_ecommerce_order 1 r = some o ∧
      o.revenue = round2 (o.subtotal + o.shipping + o.tax) ∧
      o.tax = round2 ((o.subtotal + o.shipping) * ECOMMERCE_TAX_RATE) ∧
      ((ECOMMERCE_ORDER_VALUE_MIN ≤
          (order_totals (initial_items r) (order_shipping r)).2.2 ∧
        (order_totals (initial_items r) (order_shipping r)).2.2 ≤
          ECOMMERCE_ORDER_VALUE_MAX) →
        ECOMMERCE_ORDER_VALUE_MIN ≤ o.revenue ∧
        o.revenue ≤ ECOMMERCE_ORDER_VALUE_MAX) := by
  refine ⟨make_order r, ?_, ?_, ?_, ?_⟩
  · unfold generate_ecommerce_order
    rw [if_neg (not_le.mpr hgate)]
  · unfold make_order
    split_ifs <;> rfl
  · unfold make_order
    split_ifs <;> rfl
  · intro hin
    unfold make_order
    split_ifs with hc
    · rcases hc with hc | hc
      · exact absurd hin.1 (not_le.mpr hc)
      · exact absurd hin.2 (not_le.mpr hc)
    · exact hin

theorem generate_ecommerce_order_revenue_witness :
    ∃ o, generate_ecommerce_order 1 belowMinRand = some o ∧
      o.revenue = round2 (o.subtotal + o.shipping + o.tax) ∧
      o.tax = round2 ((o.subtotal + o.shipping) * ECOMMERCE_TAX_RATE) ∧
      ((ECOMMERCE_ORDER_VALUE_MIN ≤
          (order_totals (initial_items belowMinRand) (order_shipping belowMinRand)).2.2 ∧
        (order_totals (initial_items belowMinRand) (order_shipping belowMinRand)).2.2 ≤
          ECOMMERCE_ORDER_VALUE_MAX) →
        ECOMMERCE_ORDER_VALUE_MIN ≤ o.revenue ∧
        o.revenue ≤ ECOMMERCE_ORDER_VALUE_MAX) :=
  generate_ecommerce_order_revenue belowMinRand (by decide)

/-- C6 counterexample: a visit with 2 pageviews whose search action lands
on pageview 2 (a draw `choose_action_pages` can produce) and a sampled
ecommerce order gives the last pageview a SEARCH hit, not the purchase —
the `elif` chain drops the purchase parameters. -/
theorem visit_ecommerce_not_always_last :
    choose_action_pages 2 true false false false false 0 0 0 0 0 =
      (2, -1, -1, -1, -1) ∧
    hitTag 2 2 2 (-1) (-1) (-1) (-1) true = HitTag.search ∧
    hitTag 2 2 2 (-1) (-1) (-1) (-1) true ≠ HitTag.ecommerce := by
  exact ⟨by decide, by decide, by decide⟩

/-- C6 (amended): a sampled ecommerce purchase is attached to the last
pageview exactly when the visit has more than one pageview and no other
action (search/outlink/download/click event/random event) was placed on
that last index; and the purchase parameters never appear on any other
pageview. -/
theorem visit_ecommerce_last_pageview (num_pvs : ℕ)
    (sp op dp cp rp : ℤ) (hasOrder : Bool) (horder : hasOrder = true) :
    (hitTag num_pvs num_pvs sp op dp cp rp hasOrder = HitTag.ecommerce ↔
      (1 < num_pvs ∧ sp ≠ (num_pvs : ℤ) ∧ op ≠ (num_pvs : ℤ) ∧ dp ≠ (num_pvs : ℤ) ∧
       cp ≠ (num_pvs : ℤ) ∧ rp ≠ (num_pvs : ℤ))) ∧
    (∀ i : ℕ, i ≠ num_pvs → hitTag i num_pvs sp op dp cp rp hasOrder ≠ HitTag.ecommerce) := by
  subst horder
  constructor
  · unfold hitTag ecommerce_pageview
    split_ifs <;> simp_all <;> omega
  · intro i hi
    unfold hitTag ecommerce_pageview
    split_ifs <;> simp_all <;> omega

theorem visit_ecommerce_last_pageview_witness :
    hitTag 3 3 2 (-1) (-1) (-1) (-1) true = HitTag.ecommerce :=
  (visit_ecommerce_last_pageview 3 2 (-1) (-1) (-1) (-1) true rfl).1.mpr
    (by refine ⟨by omega, ?_, ?_, ?_, ?_, ?_⟩ <;> decide)

/-- C9 counterexample: a funnel definition with an empty step list, or
whose first step is not a pageview, does NOT fail fast — loading returns
normally (the entry is skipped with a warning) and the scheduler starts.
The embedded loader is total because the source catches per-entry errors
and handles these two cases with `continue`. -/
theorem funnel_bad_entry_no_fail_fast :
    load_funnels_from_file [⟨"Broken", true, 1, 0, true, []⟩] = [] ∧
    load_funnels_from_file
      [⟨"BadFirst", true, 1, 0, true, [⟨"event", none, none⟩]⟩] = [] := by
  constructor <;> rfl

/-- C9 (amended): a funnel entry with an empty step list or a first step
that is not a pageview is skipped — loading the remaining entries
proceeds exactly as if the malformed entry were absent, with no error. -/
theorem funnel_bad_entry_skipped (bad : RawFunnel) (rest : List RawFunnel)
    (h : bad.steps = [] ∨ (bad.steps.headD ⟨"", none, none⟩).type ≠ "pageview") :
    load_funnels_from_file (bad :: rest) = load_funnels_from_file rest := by
  have hnone : loadFunnelEntry bad = none := by
    unfold loadFunnelEntry
    rcases h with h | h
    · by_cases he : bad.enabled
      · simp [he, h]
      · simp [he]
    · by_cases he : bad.enabled
      · by_cases hs : bad.steps.isEmpty
        · simp [he, hs]
        · rw [List.headD_eq_head?] at h
          simp [he, hs, h]
      · simp [he]
  unfold load_funnels_from_file
  rw [List.filterMap_cons_none hnone]

theorem funnel_bad_entry_skipped_witness :
    load_funnels_from_file
        [⟨"NoSteps", true, 1, 0, true, []⟩,
         ⟨"Good", true, 1/2, 0, true, [⟨"pageview", none, none⟩]⟩] =
      load_funnels_from_file
        [⟨"Good", true, 1/2, 0, true, [⟨"pageview", none, none⟩]⟩] :=
  funnel_bad_entry_skipped _ _ (Or.inl rfl)

/-- If every earlier trial fails and trial `j` succeeds, the scan returns
funnel `j`. -/
theorem select_funnel_from_hit (fs : List Funnel) (rs : ℕ → ℚ) :
    ∀ k j, j < fs.length →
      (∀ i, i < j → ¬ rs (k + i) ≤ (fs.getD i dummyFunnel).probability) →
      rs (k + j) ≤ (fs.getD j dummyFunnel).probability →
      select_funnel_from fs rs k = some (fs.getD j dummyFunnel) := by
  induction fs with
  | nil =>
    intro k j hj
    exact absurd hj (by simp)
  | cons f fs ih =>
    intro k j hj hfail hhit
    cases j with
    | zero =>
      have h0 : rs k ≤ f.probability := by simpa using hhit
      simp [select_funnel_from, h0]
    | succ j =>
      have h0 : ¬ rs k ≤ f.probability := by
        simpa using hfail 0 (Nat.succ_pos j)
      have hstep : select_funnel_from (f :: fs) rs k = select_funnel_from fs rs (k + 1) := by
        simp [select_funnel_from, h0]
      rw [hstep]
      have hgd : ((f :: fs).getD (j + 1) dummyFunnel) = fs.getD j dummyFunnel := rfl
      rw [hgd]
      refine ih (k + 1) j (by simpa using Nat.lt_of_succ_lt_succ hj) ?_ ?_
      · intro i hi
        have := hfail (i + 1) (Nat.succ_lt_succ hi)
        have harith : k + (i + 1) = k + 1 + i := by omega
        rw [harith] at this
        exact this
      · have harith : k + (j + 1) = k + 1 + j := by omega
        rw [harith] at hhit
        exact hhit

/-- If every trial fails the scan returns `none`. -/
theorem select_funnel_from_all_fail (fs : List Funnel) (rs : ℕ → ℚ) :
    ∀ k, (∀ i, i < fs.length → ¬ rs (k + i) ≤ (fs.getD i dummyFunnel).probability) →
      select_funnel_from fs rs k = none := by
  induction fs with
  | nil => intro k _; rfl
  | cons f fs ih =>
    intro k h
    have h0 : ¬ rs k ≤ f.probability := by simpa using h 0 (by simp)
    have hstep : select_funnel_from (f :: fs) rs k = select_funnel_from fs rs (k + 1) := by
      simp [select_funnel_from, h0]
    rw [hstep]
    refine ih (k + 1) fun i hi => ?_
    have := h (i + 1) (by simpa using Nat.succ_lt_succ hi)
    have harith : k + (i + 1) = k + 1 + i := by omega
    rw [harith] at this
    exact this

/-- A funnel returned when every draw is strictly positive has strictly
positive probability. -/
theorem select_funnel_from_pos_draws (fs : List Funnel) (rs : ℕ → ℚ)
    (hpos : ∀ i, 0 < rs i) :
    ∀ k f, select_funnel_from fs rs k = some f → 0 < f.probability := by
  induction fs with
  | nil => intro k f h; cases h
  | cons g fs ih =>
    intro k f h
    by_cases hg : rs k ≤ g.probability
    · have : some g = some f := by simpa [select_funnel_from, hg] using h
      injection this with this
      subst this
      exact lt_of_lt_of_le (hpos k) hg
    · have hstep : select_funnel_from (g :: fs) rs k = select_funnel_from fs rs (k + 1) := by
        simp [select_funnel_from, hg]
      rw [hstep] at h
      exact ih (k + 1) f h

/-- C5 (amended): the loaded funnel list is sorted by ascending priority
and `select_funnel` performs sequential Bernoulli trials down that list,
returning the first success and `none` when all fail; a funnel with
probability 1.0 is always selected when reached (any draw `< 1`), and a
funnel with probability 0.0 is never selected by a strictly positive draw
(it is selected exactly on the draw 0.0, which `random.random()` can
produce). -/
theorem select_funnel_semantics (entries : List RawFunnel)
    (funnels : List Funnel) (rs : ℕ → ℚ) (j : ℕ)
    (hj : j < funnels.length)
    (hfail : ∀ i, i < j → ¬ rs i ≤ (funnels.getD i dummyFunnel).probability)
    (hp1 : (funnels.getD j dummyFunnel).probability = 1)
    (hr : rs j < 1) :
    List.Sorted (fun a b : Funnel => a.priority ≤ b.priority)
      (load_funnels_from_file entries) ∧
    select_funnel funnels rs = some (funnels.getD j dummyFunnel) ∧
    (∀ rs2 : ℕ → ℚ,
      (∀ i, i < funnels.length → ¬ rs2 i ≤ (funnels.getD i dummyFunnel).probability) →
      select_funnel funnels rs2 = none) ∧
    (∀ rs3 : ℕ → ℚ, (∀ i, 0 < rs3 i) →
      ∀ f, select_funnel funnels rs3 = some f → 0 < f.probability) := by
  have hne : ¬ funnels.isEmpty := by
    cases funnels with
    | nil => exact absurd hj (by simp)
    | cons f fs => simp
  refine ⟨?_, ?_, ?_, ?_⟩
  · haveI : IsTotal Funnel (fun a b => a.priority ≤ b.priority) :=
      ⟨fun a b => le_total a.priority b.priority⟩
    haveI : IsTrans Funnel (fun a b => a.priority ≤ b.priority) :=
      ⟨fun _ _ _ hab hbc => le_trans hab hbc⟩
    exact List.sorted_insertionSort _ _
  · rw [select_funnel, if_neg hne]
    exact select_funnel_from_hit funnels rs 0 j hj
      (fun i hi => by simpa using hfail i hi)
      (by rw [Nat.zero_add, hp1]; exact le_of_lt hr)
  · intro rs2 h2
    rw [select_funnel, if_neg hne]
    exact select_funnel_from_all_fail funnels rs2 0
      (fun i hi => by simpa using h2 i hi)
  · intro rs3 h3 f hf
    rw [select_funnel, if_neg hne] at hf
    exact select_funnel_from_pos_draws funnels rs3 h3 0 f hf

theorem select_funnel_semantics_witness :
    select_funnel [⟨"Always", 1, 0, true, true, [⟨"pageview", 0, 0⟩]⟩]
        (fun _ => 0) =
      some ⟨"Always", 1, 0, true, true, [⟨"pageview", 0, 0⟩]⟩ :=
  (select_funnel_semantics [] [⟨"Always", 1, 0, true, true, [⟨"pageview", 0, 0⟩]⟩]
    (fun _ => 0) 0 (by decide)
    (fun i hi => absurd hi (Nat.not_lt_zero i)) rfl (by norm_num)).2.1

/-- C5 counterexample: a funnel with probability 0.0 IS selected when the
random draw is exactly 0 — a value `random.random()` can return, since its
range is `[0, 1)` and the source compares with `<=`. -/
theorem select_funnel_zero_prob_selected :
    ((0 : ℚ) ≤ 0 ∧ (0 : ℚ) < 1) ∧
    select_funnel [⟨"ZeroProb", 0, 0, true, true, [⟨"pageview", 0, 0⟩]⟩]
        (fun _ => 0) =
      some ⟨"ZeroProb", 0, 0, true, true, [⟨"pageview", 0, 0⟩]⟩ := by
  exact ⟨⟨le_refl 0, by norm_num⟩, rfl⟩

/-- Round-robin calls leave the enabled list unchanged and advance the
monotone index by one per call. -/
theorem router_afterCalls_state (r : TargetRouter) (n : ℕ) :
    (r.afterCalls n).enabled_targets = r.enabled_targets ∧
    (r.afterCalls n).index = r.index + n := by
  induction n with
  | zero => exact ⟨rfl, rfl⟩
  | succ n ih =>
    refine ⟨ih.1, ?_⟩
    show (r.afterCalls n).index + 1 = r.index + (n + 1)
    rw [ih.2, Nat.add_assoc]

/-- C8: a round-robin router over `k` enabled targets is deterministic —
the `n`-th call returns the enabled target at position `n % k`, the
sequence has exact period `k`, and any fresh router constructed from the
same target list produces the identical sequence. -/
theorem round_robin_cycle (targets : List Target) (r : TargetRouter)
    (hmk : TargetRouter.make targets "round-robin" = .ok r) :
    (∀ n, r.nthSelection n =
      (targets.filter (·.enabled)).getD
        (n % (targets.filter (·.enabled)).length) dummyTarget) ∧
    (∀ n, r.nthSelection (n + (targets.filter (·.enabled)).length) =
      r.nthSelection n) ∧
    (∀ r', TargetRouter.make targets "round-robin" = .ok r' →
      ∀ n, r'.nthSelection n = r.nthSelection n) := by
  have hr : r = ⟨targets, targets.filter (·.enabled), "round-robin", 0⟩ := by
    unfold TargetRouter.make at hmk
    split_ifs at hmk with h1 h2
    · injection hmk with h
      exact h.symm
  have hsel : ∀ n, r.nthSelection n =
      (targets.filter (·.enabled)).getD
        (n % (targets.filter (·.enabled)).length) dummyTarget := by
    intro n
    have hst := router_afterCalls_state r n
    unfold TargetRouter.nthSelection TargetRouter.next_round_robin
    rw [hst.1, hst.2, hr]
    simp
  refine ⟨hsel, fun n => ?_, fun r' hmk' n => ?_⟩
  · rw [hsel, hsel, Nat.add_mod_right]
  · have hr' : r' = r := by
      unfold TargetRouter.make at hmk'
      split_ifs at hmk' with h1 h2
      · injection hmk' with h
        rw [← h, hr]
    rw [hr']

theorem round_robin_cycle_witness :
    (TargetRouter.make
        [⟨"a", "http://a", 1, none, 1, true⟩, ⟨"b", "http://b", 2, none, 1, true⟩]
        "round-robin" = Except.ok
          ⟨[⟨"a", "http://a", 1, none, 1, true⟩, ⟨"b", "http://b", 2, none, 1, true⟩],
           [⟨"a", "http://a", 1, none, 1, true⟩, ⟨"b", "http://b", 2, none, 1, true⟩],
           "round-robin", 0⟩) ∧
    (TargetRouter.nthSelection
        ⟨[⟨"a", "http://a", 1, none, 1, true⟩, ⟨"b", "http://b", 2, none, 1, true⟩],
         [⟨"a", "http://a", 1, none, 1, true⟩, ⟨"b", "http://b", 2, none, 1, true⟩],
         "round-robin", 0⟩ 3 = ⟨"b", "http://b", 2, none, 1, true⟩) :=
  ⟨by rfl,
   by
    rw [(round_robin_cycle
      [⟨"a", "http://a", 1, none, 1, true⟩, ⟨"b", "http://b", 2, none, 1, true⟩]
      _ (by rfl)).1 3]
    decide⟩

/-- The counter identity `total = successful + failed` is preserved by any
sequence of recorded outcomes. -/
theorem applyMetricsOps_counter (ops : List MetricsOp) :
    ∀ m : TargetMetrics,
      m.total_requests = m.successful_requests + m.failed_requests →
      (applyMetricsOps m ops).total_requests =
        (applyMetricsOps m ops).successful_requests +
        (applyMetricsOps m ops).failed_requests := by
  induction ops with
  | nil => intro m h; exact h
  | cons op ops ih =>
    intro m h
    cases op with
    | success l t =>
      exact ih _ (by simp [applyMetricsOps, TargetMetrics.record_success]; omega)
    | failure e t =>
      exact ih _ (by simp [applyMetricsOps, TargetMetrics.record_failure]; omega)

/-- C10: from the initial state, after any sequence of `record_success` /
`record_failure` calls, `total_requests = successful_requests +
failed_requests` and the success rate lies in `[0, 1]`; `record_success`
adds exactly the given latency and `record_failure` never changes the
cumulative latency. -/
theorem target_metrics_invariant (name : String) (ops : List MetricsOp) :
    ((applyMetricsOps (TargetMetrics.init name) ops).total_requests =
      (applyMetricsOps (TargetMetrics.init name) ops).successful_requests +
      (applyMetricsOps (TargetMetrics.init name) ops).failed_requests) ∧
    (0 ≤ (applyMetricsOps (TargetMetrics.init name) ops).success_rate ∧
      (applyMetricsOps (TargetMetrics.init name) ops).success_rate ≤ 1) ∧
    (∀ (m : TargetMetrics) (l t : ℚ),
      (m.record_success l t).total_latency_ms = m.total_latency_ms + l) ∧
    (∀ (m : TargetMetrics) (e : String) (t : ℚ),
      (m.record_failure e t).total_latency_ms = m.total_latency_ms) := by
  have hcnt := applyMetricsOps_counter ops (TargetMetrics.init name) rfl
  refine ⟨hcnt, ?_, fun m l t => rfl, fun m e t => rfl⟩
  set m := applyMetricsOps (TargetMetrics.init name) ops with hm
  unfold TargetMetrics.success_rate
  split_ifs with hpos
  · have htot : (0 : ℚ) < (m.total_requests : ℚ) := by exact_mod_cast hpos
    constructor
    · positivity
    · rw [div_le_one htot]
      have : m.successful_requests ≤ m.total_requests := by omega
      exact_mod_cast this
  · exact ⟨le_refl 0, zero_le_one⟩

theorem choose_action_pages_correct_witness :
    ((3 : ℕ) ≤ 1 →
      choose_action_pages 3 true true false false true 0 1 2 3 4 =
        (-1, -1, -1, -1, -1)) ∧
    (1 < 3 →
      ∀ p ∈ [(choose_action_pages 3 true true false false true 0 1 2 3 4).1,
             (choose_action_pages 3 true true false false true 0 1 2 3 4).2.1,
             (choose_action_pages 3 true true false false true 0 1 2 3 4).2.2.1,
             (choose_action_pages 3 true true false false true 0 1 2 3 4).2.2.2.1,
             (choose_action_pages 3 true true false false true 0 1 2 3 4).2.2.2.2],
        p ≠ -1 → 2 ≤ p ∧ p ≤ (3 : ℤ)) :=
  choose_action_pages_correct 3 true true false false true 0 1 2 3 4

end Trafficinator
